import Mathlib

/-!
Verification of the configuration, process-monitor and backup/restore logic of
the LogosLinuxInstaller repository, as a shallow embedding in Lean.

The definitions below are translated from the Python sources:
`ou_dedetai/config.py`, `ou_dedetai/logos.py`, `ou_dedetai/backup.py`,
`ou_dedetai/control.py`, `installer.py` and `ou_dedetai/cli.py`.
External collaborators (the front-end `ask`/`approve` calls, the OS process
table, the filesystem and disk-usage queries) are passed in as explicit
arguments or state, so every definition is executable.
-/

namespace OuDedetai

/-!
Configuration model, from `ou_dedetai/config.py`.  `PersistentConfiguration`
is restricted to the fields the properties below touch; each field is
`Option String` (`None` when unset, mirroring the dataclass defaults).
-/

structure PersistentConfiguration where
  faithlife_product : Option String := none
  faithlife_product_version : Option String := none
  faithlife_product_release : Option String := none
  install_dir : Option String := none
  wine_binary : Option String := none
  wine_binary_code : Option String := none
  winetricks_binary : Option String := none
  backup_dir : Option String := none
deriving DecidableEq

/-- The `faithlife_product` property setter (config.py lines 503-510): when the
value differs from the stored one it stores the value, resets
`faithlife_product_release` and calls `_write`.  The returned `Bool` records
whether `_write` was called. -/
def set_faithlife_product (raw : PersistentConfiguration) (value : Option String) :
    PersistentConfiguration × Bool :=
  if raw.faithlife_product ≠ value then
    ({ raw with faithlife_product := value, faithlife_product_release := none }, true)
  else
    (raw, false)

/-- The `faithlife_product_version` property setter (config.py lines 520-533):
when the value differs it stores the value and resets
`faithlife_product_release`, `install_dir`, `wine_binary`, `wine_binary_code`
and `winetricks_binary`, then calls `_write`. -/
def set_faithlife_product_version (raw : PersistentConfiguration) (value : Option String) :
    PersistentConfiguration × Bool :=
  if raw.faithlife_product_version ≠ value then
    ({ raw with
        faithlife_product_version := value,
        faithlife_product_release := none,
        install_dir := none,
        wine_binary := none,
        wine_binary_code := none,
        winetricks_binary := none }, true)
  else
    (raw, false)

/-- Names of the persistent fields that `_ask_if_not_found` is called with. -/
inductive ConfigField
  | faithlife_product
  | faithlife_product_version
  | faithlife_product_release
  | install_dir
  | wine_binary
  | wine_binary_code
  | winetricks_binary
  | backup_dir
deriving DecidableEq

/-- `getattr(self._raw, parameter)`. -/
def getField (raw : PersistentConfiguration) : ConfigField → Option String
  | .faithlife_product => raw.faithlife_product
  | .faithlife_product_version => raw.faithlife_product_version
  | .faithlife_product_release => raw.faithlife_product_release
  | .install_dir => raw.install_dir
  | .wine_binary => raw.wine_binary
  | .wine_binary_code => raw.wine_binary_code
  | .winetricks_binary => raw.winetricks_binary
  | .backup_dir => raw.backup_dir

/-- `setattr(self._raw, parameter, v)`. -/
def setFieldRaw (raw : PersistentConfiguration) (f : ConfigField) (v : Option String) :
    PersistentConfiguration :=
  match f with
  | .faithlife_product => { raw with faithlife_product := v }
  | .faithlife_product_version => { raw with faithlife_product_version := v }
  | .faithlife_product_release => { raw with faithlife_product_release := v }
  | .install_dir => { raw with install_dir := v }
  | .wine_binary => { raw with wine_binary := v }
  | .wine_binary_code => { raw with wine_binary_code := v }
  | .winetricks_binary => { raw with winetricks_binary := v }
  | .backup_dir => { raw with backup_dir := v }

/-- Python truthiness of the values stored in `PersistentConfiguration`:
`None` and the empty string are falsy, every other value is truthy. -/
def optionTruthy : Option String → Bool
  | none => false
  | some s => s != ""

/-- `str(getattr(self._raw, parameter))`: Python renders `None` as `"None"`. -/
def strOfField (raw : PersistentConfiguration) (f : ConfigField) : String :=
  match getField raw f with
  | some s => s
  | none => "None"

/-- Mutable state observed by `Config._ask_if_not_found`: the persistent
configuration plus counters for front-end `ask` round-trips and `_write`
calls. -/
structure ConfigState where
  raw : PersistentConfiguration
  askCount : Nat
  writeCount : Nat
deriving DecidableEq

/-- `Config._ask_if_not_found` (config.py lines 470-484).  When the field is
falsy it clears the dependent parameters, asks the front-end (here: consumes
`answer`), applies the answer through the field's property setter or a raw
`setattr` followed by `_write` (both folded into `applyAnswer`), and returns
the stored value as a string.  When the field is truthy it returns the stored
value unchanged without asking. -/
def ask_if_not_found
    (applyAnswer : PersistentConfiguration → String → PersistentConfiguration)
    (parameter : ConfigField) (dependent_parameters : List ConfigField)
    (answer : String) (s : ConfigState) : String × ConfigState :=
  if !(optionTruthy (getField s.raw parameter)) then
    let raw1 := dependent_parameters.foldl (fun r d => setFieldRaw r d none) s.raw
    let raw2 := applyAnswer raw1 answer
    (strOfField raw2 parameter,
      { raw := raw2, askCount := s.askCount + 1, writeCount := s.writeCount + 1 })
  else
    (strOfField s.raw parameter, s)

/-!
Filesystem-aware configuration state, for the `backup_dir` property
(config.py lines 798-804) and `BackupBase.__init__` (backup.py lines 17-41).
The filesystem is a list of existing directory paths.
-/

structure ConfigFsState where
  config : ConfigState
  existingDirs : List String
deriving DecidableEq

/-- `Path.mkdir(parents=True)` with the default `exist_ok=False`: raises
`FileExistsError` when the directory itself already exists, otherwise creates
it (missing parents are created as well; they are irrelevant to the claims, so
only the leaf is recorded). -/
def mkdir_parents (fs : List String) (p : String) : Except String (List String) :=
  if p ∈ fs then
    .error ("FileExistsError: " ++ p)
  else
    .ok (p :: fs)

/-- One read of the `Config.backup_dir` property (config.py lines 798-804):
`output = Path(self._ask_if_not_found("backup_dir", question, options))`
followed by `output.mkdir(parents=True)`.  `backup_dir` has no property
setter, so a prompted answer is stored with a raw `setattr` plus `_write`. -/
def backup_dir_read (answer : String) (s : ConfigFsState) :
    Except String (String × ConfigFsState) :=
  let asked :=
    ask_if_not_found (fun r a => setFieldRaw r .backup_dir (some a))
      .backup_dir [] answer s.config
  match mkdir_parents s.existingDirs asked.1 with
  | .error e => .error e
  | .ok fs1 => .ok (asked.1, ⟨asked.2, fs1⟩)

/-- The two `self.app.conf.backup_dir` property reads in `BackupBase.__init__`
(backup.py lines 29-33): the first read happens while building the `approve`
question; a negative answer resets `self._raw.backup_dir`; then the property
is read again. -/
def backupBase_init (approve : Bool) (answer1 answer2 : String) (s : ConfigFsState) :
    Except String (String × ConfigFsState) :=
  match backup_dir_read answer1 s with
  | .error e => .error e
  | .ok r =>
    let s1 := r.2
    let s2 :=
      if approve then s1
      else { s1 with config := { s1.config with raw := setFieldRaw s1.config.raw .backup_dir none } }
    backup_dir_read answer2 s2

/-!
Process lifecycle monitor, from `ou_dedetai/logos.py`.
-/

/-- `logos.State`. -/
inductive State
  | RUNNING
  | STOPPED
  | STARTING
  | STOPPING
deriving DecidableEq

/-- The fields of `LogosManager` that `monitor_logos` and `stop` read:
the state machine state, and whether `self.processes` (the dict of
`subprocess.Popen` objects spawned by us) holds an entry for each of the
three executable names `stop` iterates over. -/
structure LogosManager where
  logos_state : State
  processes_logos : Bool
  processes_login : Bool
  processes_cef : Bool
deriving DecidableEq

/-- `LogosManager.stop` (logos.py lines 132-158).  It first sets the state to
`STOPPING`, then gathers pids: for each of the three executable names it takes
`process_list = self.processes.get(process_name)` — a single
`subprocess.Popen`, per the field's own type annotation — and runs
`[str(process.pid) for process in process_list]`.  Iterating a `Popen` raises
`TypeError`, so any present entry aborts `stop` with the state left at
`STOPPING` (the second component records the raised exception).  With no
entries present, `pids` is empty and the state is set to `STOPPED`. -/
def LogosManager.stop (m : LogosManager) : LogosManager × Option String :=
  let m1 : LogosManager := { m with logos_state := .STOPPING }
  if m1.processes_logos || m1.processes_login || m1.processes_cef then
    (m1, some "TypeError: Popen is not iterable")
  else
    ({ m1 with logos_state := .STOPPED }, none)

/-- `LogosManager.monitor_logos` (logos.py lines 45-70), with the observed
`is_running()` results for the splash, login and rendering (CEF) processes
passed in.  Exceptions escaping the call (from `stop`) are returned in the
second component; `monitor` catches and logs them, keeping the mutated
state. -/
def LogosManager.monitor_logos (m : LogosManager)
    (splash_running login_running cef_running : Bool) : LogosManager × Option String :=
  match m.logos_state with
  | .STARTING =>
    if login_running || cef_running then
      ({ m with logos_state := .RUNNING }, none)
    else
      (m, none)
  | .RUNNING =>
    if !(splash_running || login_running || cef_running) then
      m.stop
    else
      (m, none)
  | .STOPPING => (m, none)
  | .STOPPED =>
    let m1 := if splash_running then { m with logos_state := State.STARTING } else m
    let m2 := if login_running then { m1 with logos_state := State.RUNNING } else m1
    let m3 := if cef_running then { m2 with logos_state := State.RUNNING } else m2
    (m3, none)

/-!
Backup/restore engine, from `ou_dedetai/backup.py`, plus the matching pieces
of `ou_dedetai/control.py`.
-/

/-- `BackupBase.DATA_DIRS`. -/
def DATA_DIRS : List String := ["Data", "Documents", "Users"]

/-- Python `s.startswith(pre)`, i.e. character-wise prefix. -/
def str_startswith (s pre : String) : Bool :=
  pre.data.isPrefixOf s.data

/-- Python `s.replace("-", "")`. -/
def remove_dashes (s : String) : String :=
  String.mk (s.data.filter (fun c => c != '-'))

/-- A directory entry under the backup root. -/
structure DirEntry where
  name : String
  isDir : Bool
deriving DecidableEq

/-- `Path.glob('*')`: every child except names beginning with a dot. -/
def globStar (entries : List DirEntry) : List DirEntry :=
  entries.filter (fun e => !(str_startswith e.name "."))

/-- Python string comparison on the underlying character sequences:
lexicographic by code point. -/
def chars_le : List Char → List Char → Bool
  | [], _ => true
  | _ :: _, [] => false
  | a :: as, b :: bs =>
    if a < b then true
    else if b < a then false
    else chars_le as bs

/-- Python `a <= b` on strings. -/
def str_le (a b : String) : Bool :=
  chars_le a.data b.data

/-- The ordering `list.sort()` sorts by, as a relation. -/
def StrLE (a b : String) : Prop :=
  str_le a b = true

instance : DecidableRel StrLE :=
  fun a b => inferInstanceAs (Decidable (str_le a b = true))

/-- `BackupBase._get_all_backups` (backup.py lines 54-58): the children of the
backup root that are directories and whose names start with
`self.app.conf.faithlife_product`, as full paths, sorted with `list.sort()`. -/
def get_all_backups (backup_dir : String) (entries : List DirEntry)
    (faithlife_product : String) : List String :=
  (((globStar entries).filter
      (fun e => e.isDir && str_startswith e.name faithlife_product)).map
    (fun e => backup_dir ++ "/" ++ e.name)).insertionSort StrLE

/-- Modelled from the spec: `utils.enough_disk_space` (utils.py is not in the
source tree; its tests are).  Spec 4.4 step (5): "verify free space on the
destination filesystem ≥ computed size". -/
def enough_disk_space (dest_free size : Nat) : Bool :=
  size ≤ dest_free

/-- `BackupBase._get_source_subdirs` filter (backup.py line 83): the members
of `DATA_DIRS` that exist as directories under the source. -/
def get_source_subdirs (present : String → Bool) : List String :=
  DATA_DIRS.filter present

/-- Result of `BackupBase._verify_disk_space` (backup.py lines 122-129).
`insufficient removed` is the `app.exit("not enough free disk space…")` path;
`removed` records whether the preceding `destination_dir.rmdir()` succeeded
(`Path.rmdir` raises `OSError` on a non-empty directory, which the code
catches and logs). -/
inductive VerifyResult
  | insufficient (dest_removed : Bool)
  | sufficient
deriving DecidableEq

/-- `BackupBase._verify_disk_space` (backup.py lines 122-129). -/
def verify_disk_space (data_size dest_free : Nat) (dest_empty : Bool) : VerifyResult :=
  if !(enough_disk_space dest_free data_size) then
    .insufficient dest_empty
  else
    .sufficient

/-- How far `BackupBase._run` (backup.py lines 95-120) gets:
`exitNothingTo` is the `app.exit("there are no files to …")` in
`_get_source_subdirs`; `exitNoSpace` the insufficient-space exit (before any
copying, recording whether the destination directory was removed);
`copyStarted` means the copy worker thread was started for the given source
subdirectories and computed total size.  `app.exit` (app.py, an external
collaborator) is modelled from the spec as terminating with a fatal,
user-visible error. -/
inductive RunOutcome
  | exitNothingTo
  | exitNoSpace (dest_removed : Bool)
  | copyStarted (src_dirs : List String) (data_size : Nat)
deriving DecidableEq

/-- `BackupBase._run` (backup.py lines 95-120) up to the start of the copy
worker.  `present` says which of `DATA_DIRS` exist under the source,
`data_size` is the computed total size of those subdirectories, `dest_free`
the free space on the destination filesystem, and `dest_empty` whether the
destination directory is empty when `_verify_disk_space` runs. -/
def BackupBase_run (present : String → Bool) (data_size dest_free : Nat)
    (dest_empty : Bool) : RunOutcome :=
  let src_dirs := get_source_subdirs present
  if src_dirs = [] then
    .exitNothingTo
  else
    match verify_disk_space data_size dest_free dest_empty with
    | .insufficient removed => .exitNoSpace removed
    | .sufficient => .copyStarted src_dirs data_size

/-- `BackupBase._get_copy_percentage` (backup.py lines 60-69):
`int(delta * 100 / self.data_size)`; a zero `data_size` makes the division
raise `ZeroDivisionError`. -/
def get_copy_percentage (delta data_size : Nat) : Except String Nat :=
  if data_size = 0 then
    .error "ZeroDivisionError"
  else
    .ok (delta * 100 / data_size)

/-- The zero-size guard of `control.backup_and_restore` (control.py lines
106-108): `if src_size == 0: app.exit(f"Nothing to {mode}!")`, run before the
destination is prepared and before any copy. -/
def backup_and_restore_size_guard (src_size : Nat) : Except String Nat :=
  if src_size = 0 then
    .error "Nothing to do"
  else
    .ok src_size

/-- `BackupTask._get_destination_dir` (backup.py lines 168-181): the
destination is `<backup_dir>/<product>-<timestamp-without-dashes>`; `mkdir()`
is attempted and a `FileExistsError` is only logged as a warning — the
existing directory is returned and the backup proceeds into it.  Returns the
destination path, the updated filesystem, and whether the collision warning
was logged. -/
def BackupTask_get_destination_dir (fs : List String)
    (backup_dir faithlife_product timestamp : String) :
    String × List String × Bool :=
  let name := faithlife_product ++ "-" ++ remove_dashes timestamp
  let destination_dir := backup_dir ++ "/" ++ name
  if destination_dir ∈ fs then
    (destination_dir, fs, true)
  else
    (destination_dir, destination_dir :: fs, false)

/-- The collision check of `control.backup_and_restore` (control.py lines
126-131): `dst_dir.mkdir()`, with `FileExistsError` answered by
`app.exit(f"Backup already exists: {dst_dir}.")`. -/
def backup_and_restore_mkdir_dest (fs : List String) (dst_dir : String) :
    Except String (List String) :=
  if dst_dir ∈ fs then
    .error ("Backup already exists: " ++ dst_dir)
  else
    .ok (dst_dir :: fs)

/-!
Install progress reporting, from `installer.py` and `ou_dedetai/cli.py`.
-/

/-- Python's built-in `round` on a rational value: round half to even. -/
def python_round (q : ℚ) : ℤ :=
  if q - ⌊q⌋ < 1/2 then ⌊q⌋
  else if 1/2 < q - ⌊q⌋ then ⌊q⌋ + 1
  else if ⌊q⌋ % 2 = 0 then ⌊q⌋ else ⌊q⌋ + 1

/-- `get_progress_pct` (installer.py lines 714-715):
`round(current * 100 / total)`. -/
def get_progress_pct (current total : Nat) : ℤ :=
  python_round ((current : ℚ) * 100 / (total : ℚ))

/-- The percent clamp in `CLI._status` (cli.py lines 168-170): a percent above
100 is displayed as 100; other values pass through unchanged. -/
def cli_status_percent (percent : ℤ) : ℤ :=
  if percent > 100 then 100 else percent

/-- A fully-resolved persistent configuration, used as concrete input in the
witnesses below. -/
def sampleFullConfig : PersistentConfiguration :=
  { faithlife_product := some "Logos",
    faithlife_product_version := some "9",
    faithlife_product_release := some "30.0.3",
    install_dir := some "/home/user/LogosBible9",
    wine_binary := some "/usr/bin/wine64",
    wine_binary_code := some "System",
    winetricks_binary := some "/usr/bin/winetricks",
    backup_dir := some "/home/user/backups" }

/-- A concrete backup-root directory listing, used as concrete input in the
witnesses below. -/
def backupEntries : List DirEntry :=
  [⟨"Logos-20240102", true⟩, ⟨"Logos-20240101", true⟩, ⟨"Logos-20240103", true⟩,
   ⟨"notes.txt", false⟩, ⟨"Verbum-20240101", true⟩]

/-- C1: setting `faithlife_product_version` through its setter to a value
different from the stored one leaves `faithlife_product_release`,
`install_dir`, `wine_binary`, `wine_binary_code` and `winetricks_binary` all
unset afterwards. -/
theorem faithlife_product_version_setter_clears_dependents
    (raw : PersistentConfiguration) (value : Option String)
    (h : raw.faithlife_product_version ≠ value) :
    (set_faithlife_product_version raw value).1.faithlife_product_release = none ∧
    (set_faithlife_product_version raw value).1.install_dir = none ∧
    (set_faithlife_product_version raw value).1.wine_binary = none ∧
    (set_faithlife_product_version raw value).1.wine_binary_code = none ∧
    (set_faithlife_product_version raw value).1.winetricks_binary = none := by
  simp [set_faithlife_product_version, h]

/-- Witness for C1 at a fully-resolved configuration. -/
theorem faithlife_product_version_setter_clears_dependents_witness :
    sampleFullConfig.faithlife_product_version ≠ some "10" ∧
    ((set_faithlife_product_version sampleFullConfig (some "10")).1.faithlife_product_release = none ∧
      (set_faithlife_product_version sampleFullConfig (some "10")).1.install_dir = none ∧
      (set_faithlife_product_version sampleFullConfig (some "10")).1.wine_binary = none ∧
      (set_faithlife_product_version sampleFullConfig (some "10")).1.wine_binary_code = none ∧
      (set_faithlife_product_version sampleFullConfig (some "10")).1.winetricks_binary = none) :=
  ⟨by decide, faithlife_product_version_setter_clears_dependents sampleFullConfig (some "10") (by decide)⟩

/-- C2 counterexample: at a fully-resolved configuration storing product
`Logos` and version `9`, setting `faithlife_product` to `Verbum` (a value
different from the stored one) does not leave `faithlife_product_version`
unset — the setter only resets `faithlife_product_release`. -/
theorem faithlife_product_setter_keeps_version_cex :
    ¬ ((set_faithlife_product sampleFullConfig (some "Verbum")).1.faithlife_product_version
      = none) := by
  decide

/-- C2 (amended): setting `faithlife_product` through its setter to a value
different from the stored one leaves `faithlife_product_release` unset
afterwards, and leaves `faithlife_product_version` unchanged. -/
theorem faithlife_product_setter_clears_release
    (raw : PersistentConfiguration) (value : Option String)
    (h : raw.faithlife_product ≠ value) :
    (set_faithlife_product raw value).1.faithlife_product_release = none ∧
    (set_faithlife_product raw value).1.faithlife_product_version
      = raw.faithlife_product_version := by
  simp [set_faithlife_product, h]

/-- Witness for the amended C2 at a fully-resolved configuration. -/
theorem faithlife_product_setter_clears_release_witness :
    sampleFullConfig.faithlife_product ≠ some "Verbum" ∧
    ((set_faithlife_product sampleFullConfig (some "Verbum")).1.faithlife_product_release = none ∧
      (set_faithlife_product sampleFullConfig (some "Verbum")).1.faithlife_product_version
        = sampleFullConfig.faithlife_product_version) :=
  ⟨by decide, faithlife_product_setter_clears_release sampleFullConfig (some "Verbum") (by decide)⟩

/-- C4: when the requested field is already resolved (truthy in the persistent
configuration), `_ask_if_not_found` leaves the whole state unchanged — in
particular it never calls the front-end `ask` and never writes — and a second
call in a row returns the same value as the first. -/
theorem ask_if_not_found_idempotent
    (applyAnswer : PersistentConfiguration → String → PersistentConfiguration)
    (parameter : ConfigField) (dependent_parameters : List ConfigField)
    (answer1 answer2 : String) (s : ConfigState)
    (h : optionTruthy (getField s.raw parameter) = true) :
    (ask_if_not_found applyAnswer parameter dependent_parameters answer1 s).2 = s ∧
    (ask_if_not_found applyAnswer parameter dependent_parameters answer2
        ((ask_if_not_found applyAnswer parameter dependent_parameters answer1 s).2)).1
      = (ask_if_not_found applyAnswer parameter dependent_parameters answer1 s).1 ∧
    (ask_if_not_found applyAnswer parameter dependent_parameters answer1 s).2.askCount
      = s.askCount := by
  simp [ask_if_not_found, h]

/-- Witness for C4: asking for the already-resolved `faithlife_product`. -/
theorem ask_if_not_found_idempotent_witness :
    optionTruthy (getField sampleFullConfig ConfigField.faithlife_product) = true ∧
    ((ask_if_not_found (fun r _ => r) ConfigField.faithlife_product
        [ConfigField.faithlife_product_version] "x" ⟨sampleFullConfig, 0, 0⟩).2
      = ⟨sampleFullConfig, 0, 0⟩ ∧
      (ask_if_not_found (fun r _ => r) ConfigField.faithlife_product
          [ConfigField.faithlife_product_version] "y"
          ((ask_if_not_found (fun r _ => r) ConfigField.faithlife_product
              [ConfigField.faithlife_product_version] "x" ⟨sampleFullConfig, 0, 0⟩).2)).1
        = (ask_if_not_found (fun r _ => r) ConfigField.faithlife_product
            [ConfigField.faithlife_product_version] "x" ⟨sampleFullConfig, 0, 0⟩).1 ∧
      (ask_if_not_found (fun r _ => r) ConfigField.faithlife_product
          [ConfigField.faithlife_product_version] "x" ⟨sampleFullConfig, 0, 0⟩).2.askCount
        = (⟨sampleFullConfig, 0, 0⟩ : ConfigState).askCount) :=
  ⟨by decide,
    ask_if_not_found_idempotent (fun r _ => r) ConfigField.faithlife_product
      [ConfigField.faithlife_product_version] "x" "y" ⟨sampleFullConfig, 0, 0⟩ (by decide)⟩

/-- C10: when the persisted `backup_dir` is set to `p` and a directory exists
at `p`, reading the `Config.backup_dir` property raises `FileExistsError`
(its `mkdir(parents=True)` call omits `exist_ok`); and when no directory
exists at `p` yet, `BackupBase.__init__` — which reads the property twice —
fails with `FileExistsError` on its second read, because the first read
created the directory. -/
theorem backup_dir_read_raises_file_exists
    (s : ConfigFsState) (p answer a1 a2 : String)
    (hset : s.config.raw.backup_dir = some p) (hne : p ≠ "") :
    (p ∈ s.existingDirs →
      backup_dir_read answer s = .error ("FileExistsError: " ++ p)) ∧
    (p ∉ s.existingDirs →
      backupBase_init true a1 a2 s = .error ("FileExistsError: " ++ p)) := by
  have hb : (p != "") = true := bne_iff_ne.mpr hne
  constructor
  · intro hmem
    simp [backup_dir_read, ask_if_not_found, getField, strOfField, optionTruthy, hset, hb,
      mkdir_parents, hmem]
  · intro hmem
    simp [backupBase_init, backup_dir_read, ask_if_not_found, getField, strOfField,
      optionTruthy, hset, hb, mkdir_parents, hmem]

/-- Witness for C10: both failure modes at concrete states. -/
theorem backup_dir_read_raises_file_exists_witness :
    backup_dir_read "ans" ⟨⟨sampleFullConfig, 0, 0⟩, ["/home/user/backups"]⟩
      = .error ("FileExistsError: " ++ "/home/user/backups") ∧
    backupBase_init true "a" "b" ⟨⟨sampleFullConfig, 0, 0⟩, []⟩
      = .error ("FileExistsError: " ++ "/home/user/backups") :=
  ⟨(backup_dir_read_raises_file_exists ⟨⟨sampleFullConfig, 0, 0⟩, ["/home/user/backups"]⟩
      "/home/user/backups" "ans" "x" "y" (by decide) (by decide)).1 (by decide),
    (backup_dir_read_raises_file_exists ⟨⟨sampleFullConfig, 0, 0⟩, []⟩
      "/home/user/backups" "z" "a" "b" (by decide) (by decide)).2 (by decide)⟩

/-- C3 evaluation: from `STARTING`, observing a running login sub-process does
move the state to `RUNNING`; but from `RUNNING` with none of splash, login or
CEF observed running and a self-spawned Logos `Popen` tracked in
`self.processes` (the normal situation after `start()`), `monitor_logos` calls
`stop()`, which sets the state to `STOPPING` and then raises `TypeError`
while iterating the `Popen`, so the state never becomes `STOPPED` (the
`monitor` wrapper catches and merely logs the exception). -/
theorem monitor_logos_stop_typeerror_cex :
    ((⟨State.STARTING, true, false, false⟩ : LogosManager).monitor_logos
        false true false).1.logos_state = State.RUNNING ∧
    ((⟨State.RUNNING, true, false, false⟩ : LogosManager).monitor_logos
        false false false).1.logos_state = State.STOPPING ∧
    ((⟨State.RUNNING, true, false, false⟩ : LogosManager).monitor_logos
        false false false).2 = some "TypeError: Popen is not iterable" ∧
    ((⟨State.RUNNING, false, false, false⟩ : LogosManager).monitor_logos
        false false false).1.logos_state = State.STOPPED := by
  decide

/-- C5: in any run in which the destination filesystem's free space is smaller
than the computed source size and the (just-created) destination directory is
still empty, `BackupBase._run` exits fatally out of `_verify_disk_space` with
the destination directory removed, and the copy worker is never started. -/
theorem run_insufficient_space_aborts
    (present : String → Bool) (data_size dest_free : Nat)
    (hfree : dest_free < data_size)
    (hsrc : get_source_subdirs present ≠ []) :
    BackupBase_run present data_size dest_free true = .exitNoSpace true ∧
    ∀ l n, BackupBase_run present data_size dest_free true ≠ .copyStarted l n := by
  have h1 : ¬ data_size ≤ dest_free := Nat.not_le.mpr hfree
  have hv : verify_disk_space data_size dest_free true = .insufficient true := by
    simp [verify_disk_space, enough_disk_space, h1]
  refine ⟨?_, ?_⟩ <;> simp [BackupBase_run, hsrc, hv]

/-- Witness for C5: a backup of a 10-byte source onto a disk with 5 free
bytes. -/
theorem run_insufficient_space_aborts_witness :
    5 < 10 ∧
    get_source_subdirs (fun d => d == "Data") ≠ [] ∧
    (BackupBase_run (fun d => d == "Data") 10 5 true = .exitNoSpace true ∧
      ∀ l n, BackupBase_run (fun d => d == "Data") 10 5 true ≠ .copyStarted l n) :=
  ⟨by decide, by decide,
    run_insufficient_space_aborts (fun d => d == "Data") 10 5 (by decide) (by decide)⟩

/-- C6 evaluation: with `<backup_dir>/<product>-<timestamp-without-dashes>`
already existing, `BackupTask._get_destination_dir` only logs a warning and
returns the existing directory unchanged — it does not abort and chooses no
alternate name — whereas the collision check in `control.backup_and_restore`
exits with a hard error at the same input. -/
theorem backup_collision_not_aborted_cex :
    BackupTask_get_destination_dir ["/backups/Logos-20240101"] "/backups" "Logos" "2024-01-01"
      = ("/backups/Logos-20240101", ["/backups/Logos-20240101"], true) ∧
    backup_and_restore_mkdir_dest ["/backups/Logos-20240101"] "/backups/Logos-20240101"
      = .error ("Backup already exists: " ++ "/backups/Logos-20240101") :=
  ⟨rfl, rfl⟩

/-- C7 evaluation: a backup whose only existing source subdirectory (`Data`)
has computed total size 0 is not stopped before the copy — `BackupBase._run`
starts the copy worker — and the poll-loop percentage computation
`int(delta * 100 / data_size)` then divides by zero; the zero-size guard in
`control.backup_and_restore`, by contrast, exits immediately. -/
theorem backup_zero_size_division_cex :
    BackupBase_run (fun d => d == "Data") 0 1000 true = .copyStarted ["Data"] 0 ∧
    get_copy_percentage 0 0 = .error "ZeroDivisionError" ∧
    backup_and_restore_size_guard 0 = .error "Nothing to do" :=
  ⟨rfl, rfl, rfl⟩

/-- Rounding a nonnegative rational with Python's `round` is nonnegative. -/
theorem python_round_nonneg (q : ℚ) (h : 0 ≤ q) : 0 ≤ python_round q := by
  have hf : (0 : ℤ) ≤ ⌊q⌋ := Int.floor_nonneg.mpr h
  unfold python_round
  split_ifs <;> omega

/-- C8: every install progress report computes
`round(current_step * 100 / total_steps)`, and the percent value the CLI
front-end displays for it lies in the interval `[0, 100]`. -/
theorem install_progress_pct_formula_and_clamp (current total : Nat) (h : 0 < total) :
    get_progress_pct current total = python_round ((current : ℚ) * 100 / (total : ℚ)) ∧
    0 ≤ cli_status_percent (get_progress_pct current total) ∧
    cli_status_percent (get_progress_pct current total) ≤ 100 := by
  have hq : (0 : ℚ) ≤ (current : ℚ) * 100 / (total : ℚ) := by positivity
  have h0 : 0 ≤ get_progress_pct current total := python_round_nonneg _ hq
  refine ⟨rfl, ?_, ?_⟩ <;> (unfold cli_status_percent; split_ifs <;> omega)

/-- Witness for C8 at step 3 of 7. -/
theorem install_progress_pct_formula_and_clamp_witness :
    0 < 7 ∧
    (get_progress_pct 3 7 = python_round ((3 : ℚ) * 100 / (7 : ℚ)) ∧
      0 ≤ cli_status_percent (get_progress_pct 3 7) ∧
      cli_status_percent (get_progress_pct 3 7) ≤ 100) :=
  ⟨by decide, install_progress_pct_formula_and_clamp 3 7 (by decide)⟩

/-- The character-wise string comparison is total. -/
theorem chars_le_total (as : List Char) :
    ∀ bs : List Char, chars_le as bs = true ∨ chars_le bs as = true := by
  induction as with
  | nil => intro bs; left; simp [chars_le]
  | cons a as ih =>
    intro bs
    cases bs with
    | nil => right; simp [chars_le]
    | cons b bs =>
      by_cases hab : a < b
      · left; simp [chars_le, hab]
      · by_cases hba : b < a
        · right; simp [chars_le, hba]
        · rcases ih bs with h | h
          · left; simp [chars_le, hab, hba, h]
          · right; simp [chars_le, hba, hab, h]

/-- The character-wise string comparison is transitive. -/
theorem chars_le_trans (as : List Char) :
    ∀ bs cs : List Char,
      chars_le as bs = true → chars_le bs cs = true → chars_le as cs = true := by
  induction as with
  | nil => intro bs cs _ _; simp [chars_le]
  | cons a as ih =>
    intro bs cs h1 h2
    cases bs with
    | nil => simp [chars_le] at h1
    | cons b bs =>
      cases cs with
      | nil => simp [chars_le] at h2
      | cons c cs =>
        have h1' : a < b ∨ (¬ a < b ∧ ¬ b < a ∧ chars_le as bs = true) := by
          by_cases hab : a < b
          · exact Or.inl hab
          · by_cases hba : b < a
            · simp [chars_le, hab, hba] at h1
            · simp only [chars_le, if_neg hab, if_neg hba] at h1
              exact Or.inr ⟨hab, hba, h1⟩
        have h2' : b < c ∨ (¬ b < c ∧ ¬ c < b ∧ chars_le bs cs = true) := by
          by_cases hbc : b < c
          · exact Or.inl hbc
          · by_cases hcb : c < b
            · simp [chars_le, hbc, hcb] at h2
            · simp only [chars_le, if_neg hbc, if_neg hcb] at h2
              exact Or.inr ⟨hbc, hcb, h2⟩
        rcases h1' with hab | ⟨hab, hba, hrec1⟩
        · rcases h2' with hbc | ⟨hbc, hcb, _⟩
          · simp [chars_le, lt_trans hab hbc]
          · have hbc2 : b = c := le_antisymm (not_lt.mp hcb) (not_lt.mp hbc)
            subst hbc2
            simp [chars_le, hab]
        · have hab2 : a = b := le_antisymm (not_lt.mp hba) (not_lt.mp hab)
          subst hab2
          rcases h2' with hbc | ⟨hbc, hcb, hrec2⟩
          · simp [chars_le, hbc]
          · simp [chars_le, hbc, hcb, ih bs cs hrec1 hrec2]

/-- A name that starts with a non-empty product name which itself does not
start with a dot cannot start with a dot (so `glob('*')` skipping hidden
entries never drops a matching backup folder). -/
theorem str_startswith_dot_false (product name : String) (hp : product ≠ "")
    (hdot : str_startswith product "." = false)
    (h : str_startswith name product = true) :
    str_startswith name "." = false := by
  unfold str_startswith at hdot h ⊢
  have hpre : product.data <+: name.data := List.isPrefixOf_iff_prefix.mp h
  rw [Bool.eq_false_iff] at hdot ⊢
  intro habs
  have hdotpre : (".".data : List Char) <+: name.data := List.isPrefixOf_iff_prefix.mp habs
  apply hdot
  apply List.isPrefixOf_iff_prefix.mpr
  obtain ⟨u, hu⟩ := hpre
  obtain ⟨t, ht⟩ := hdotpre
  cases hcp : product.data with
  | nil => exact absurd (String.ext (by rw [hcp])) hp
  | cons pc pcs =>
    rw [hcp] at hu
    have hcons : pc :: (pcs ++ u) = '.' :: t := by
      have h3 := hu.trans ht.symm
      simpa using h3
    have hpc : pc = '.' := (List.cons.injEq _ _ _ _).mp hcons |>.1
    exact ⟨pcs, by simp [hpc]⟩

/-- C9: `_get_all_backups` returns exactly the directories under the backup
root whose names start with the configured product name (as full paths), in
ascending sorted order: the result is sorted with respect to string order and
is a permutation of the filtered directory listing. -/
theorem get_all_backups_exact_sorted
    (backup_dir product : String) (entries : List DirEntry)
    (hp : product ≠ "") (hdot : str_startswith product "." = false) :
    List.Sorted StrLE (get_all_backups backup_dir entries product) ∧
    (get_all_backups backup_dir entries product).Perm
      ((entries.filter (fun e => e.isDir && str_startswith e.name product)).map
        (fun e => backup_dir ++ "/" ++ e.name)) := by
  have hfilter :
      (globStar entries).filter (fun e => e.isDir && str_startswith e.name product)
        = entries.filter (fun e => e.isDir && str_startswith e.name product) := by
    unfold globStar
    rw [List.filter_filter]
    refine List.filter_congr ?_
    intro e _
    cases hs : str_startswith e.name product with
    | false => simp [hs]
    | true => simp [hs, str_startswith_dot_false product e.name hp hdot hs]
  constructor
  · unfold get_all_backups
    exact @List.sorted_insertionSort String StrLE _
      ⟨fun a b => chars_le_total a.data b.data⟩
      ⟨fun a b c => chars_le_trans a.data b.data c.data⟩ _
  · unfold get_all_backups
    rw [hfilter]
    exact List.perm_insertionSort StrLE _

/-- Witness for C9, including the spec's concrete three-folder scenario. -/
theorem get_all_backups_exact_sorted_witness :
    ("Logos" : String) ≠ "" ∧
    str_startswith "Logos" "." = false ∧
    (List.Sorted StrLE (get_all_backups "/b" backupEntries "Logos") ∧
      (get_all_backups "/b" backupEntries "Logos").Perm
        ((backupEntries.filter (fun e => e.isDir && str_startswith e.name "Logos")).map
          (fun e => "/b" ++ "/" ++ e.name))) ∧
    get_all_backups "/b" backupEntries "Logos"
      = ["/b/Logos-20240101", "/b/Logos-20240102", "/b/Logos-20240103"] :=
  ⟨by decide, by decide,
    get_all_backups_exact_sorted "/b" "Logos" backupEntries (by decide) (by decide),
    by decide⟩

end OuDedetai
